import Mathlib

/-!
Verification of the authentication / comment-board core of `app.py`
(a FastAPI personal-website backend).

The application is embedded shallowly: the relational store becomes a
record of lists with explicit auto-increment counters and a monotone
insertion clock (modelling `datetime.utcnow` stamps, which the database
orders); the signed-cookie session becomes an `Option Nat` holding the
`user_id` key; each route handler becomes a pure function from the store
and the inbound session to a response together with the updated store and
session.  The password-hashing primitive (passlib bcrypt) is an external
collaborator and is modelled as an injective tagged encoding of the
password: this preserves exactly what the handlers rely on — hashing is
deterministic per verification, the hash is never the plaintext, and
`verify_password` succeeds precisely on the hashed password.
-/

namespace App

/-- Database model for a user (`class User`): auto-assigned integer id,
username, and the stored password hash. -/
structure User where
  id : Nat
  username : String
  hashed_password : String
deriving Repr, DecidableEq

/-- Database model for a comment (`class Comment`): auto-assigned id, body
text, server-assigned creation timestamp, and the owning user's id
(foreign key `user_id`). -/
structure Comment where
  id : Nat
  text : String
  created_at : Nat
  user_id : Nat
deriving Repr, DecidableEq

/-- Database model for a contact form submission (`class ContactFormEntry`). -/
structure ContactFormEntry where
  id : Nat
  name : String
  email : String
  message : String
deriving Repr, DecidableEq

/-- The relational store: the three tables, their auto-increment counters
(MySQL assigns ids from 1), and a clock that strictly increases at every
timestamped insert, modelling `datetime.utcnow`. -/
structure DB where
  users : List User
  comments : List Comment
  entries : List ContactFormEntry
  nextUserId : Nat
  nextCommentId : Nat
  nextEntryId : Nat
  clock : Nat
deriving Repr, DecidableEq

/-- The store at startup: `Base.metadata.create_all` creates the three
empty tables; auto-increment counters start at 1. -/
def initDB : DB := ⟨[], [], [], 1, 1, 1, 0⟩

/-- The cookie session, reduced to its only key: `session["user_id"]`. -/
abbrev SessionData := Option Nat

/-- What a handler hands back to the framework: a Jinja template render
(with the template's user context and, for the comments page, the comment
list), a `RedirectResponse url status_code`, or a raised `HTTPException`. -/
inductive Response where
  | template (name : String) (user : Option User) (comments : Option (List Comment))
  | redirect (url : String) (statusCode : Nat)
  | httpError (statusCode : Nat) (detail : String)
deriving Repr, DecidableEq

/-- HTTP status of a response: a template render is served with 200. -/
def Response.status : Response → Nat
  | .template _ _ _ => 200
  | .redirect _ s => s
  | .httpError s _ => s

/-- True exactly for a `RedirectResponse`. -/
def Response.isRedirect : Response → Bool
  | .redirect _ _ => true
  | _ => false

/-- True exactly for a template render. -/
def Response.isTemplate : Response → Bool
  | .template _ _ _ => true
  | _ => false

/-- Result of one handler invocation: the response, the store after the
handler's commits, and the outbound session. -/
abbrev HandlerResult := Response × DB × SessionData

/-- `get_user_from_db`: `db.query(User).filter(User.username == username).first()`. -/
def get_user_from_db (db : DB) (username : String) : Option User :=
  db.users.find? (fun u => u.username == username)

/-- `get_password_hash`: passlib bcrypt `pwd_context.hash`, modelled as an
injective tagged encoding of the password (the salt is internal to the
external primitive). -/
def get_password_hash (password : String) : String :=
  "$2b$12$" ++ password

/-- `verify_password`: passlib `pwd_context.verify`, which succeeds exactly
when the plaintext hashes to the stored hash. -/
def verify_password (plain_password hashed_password : String) : Bool :=
  get_password_hash plain_password == hashed_password

/-- `get_current_user_from_session`: reads `session.get("user_id")`;
Python's `if user_id:` is falsy both for a missing key and for the value 0,
so id 0 never resolves; otherwise looks the id up in the users table. -/
def get_current_user_from_session (db : DB) (session : SessionData) : Option User :=
  match session with
  | some user_id =>
      if user_id ≠ 0 then db.users.find? (fun u => u.id == user_id) else none
  | none => none

/-- GET `/` (`home`): renders `index.html` with the optional current user. -/
def home (db : DB) (session : SessionData) : HandlerResult :=
  (.template "index.html" (get_current_user_from_session db session) none, db, session)

/-- GET `/about` (`about`): renders `about.html`. -/
def about (db : DB) (session : SessionData) : HandlerResult :=
  (.template "about.html" (get_current_user_from_session db session) none, db, session)

/-- GET `/contact` (`show_contact_form`): renders `contact.html`. -/
def show_contact_form (db : DB) (session : SessionData) : HandlerResult :=
  (.template "contact.html" (get_current_user_from_session db session) none, db, session)

/-- POST `/contact` (`submit_contact_form`): inserts a `ContactFormEntry`
and redirects to `/thank-you` with 303. -/
def submit_contact_form (db : DB) (session : SessionData)
    (name email message : String) : HandlerResult :=
  let new_entry : ContactFormEntry := ⟨db.nextEntryId, name, email, message⟩
  (.redirect "/thank-you" 303,
   { db with entries := db.entries ++ [new_entry], nextEntryId := db.nextEntryId + 1 },
   session)

/-- GET `/thank-you` (`show_thank_you_page`): renders `thank-you.html`. -/
def show_thank_you_page (db : DB) (session : SessionData) : HandlerResult :=
  (.template "thank-you.html" (get_current_user_from_session db session) none, db, session)

/-- GET `/register` (`show_register_form`): renders `register.html`; this
handler does not resolve a current user. -/
def show_register_form (db : DB) (session : SessionData) : HandlerResult :=
  (.template "register.html" none none, db, session)

/-- POST `/register` (`register_user`): raises HTTP 400 if the username is
taken; otherwise inserts the user with the hashed password, sets
`session["user_id"]` to the new id, and redirects to `/comments`. -/
def register_user (db : DB) (session : SessionData)
    (username password : String) : HandlerResult :=
  match get_user_from_db db username with
  | some _ => (.httpError 400 "Username already registered", db, session)
  | none =>
      let hashed_password := get_password_hash password
      let new_user : User := ⟨db.nextUserId, username, hashed_password⟩
      let db' := { db with users := db.users ++ [new_user], nextUserId := db.nextUserId + 1 }
      (.redirect "/comments" 303, db', some new_user.id)

/-- GET `/login` (`show_login_form`): renders `login.html`; this handler
does not resolve a current user. -/
def show_login_form (db : DB) (session : SessionData) : HandlerResult :=
  (.template "login.html" none none, db, session)

/-- POST `/login` (`login_user`): on unknown username or failed password
verification, renders `login-error.html` (no exception, session untouched);
on success sets `session["user_id"]` and redirects to `/comments`. -/
def login_user (db : DB) (session : SessionData)
    (username password : String) : HandlerResult :=
  match get_user_from_db db username with
  | none => (.template "login-error.html" none none, db, session)
  | some user =>
      if verify_password password user.hashed_password then
        (.redirect "/comments" 303, db, some user.id)
      else
        (.template "login-error.html" none none, db, session)

/-- GET `/logout` (`logout_user`): clears the session unconditionally and
redirects to `/`. -/
def logout_user (db : DB) (_session : SessionData) : HandlerResult :=
  (.redirect "/" 303, db, none)

/-- `db.query(Comment).order_by(Comment.created_at.desc()).all()`: all
comments, ordered by creation timestamp descending. -/
def listComments (db : DB) : List Comment :=
  db.comments.mergeSort (fun a b => b.created_at ≤ a.created_at)

/-- GET `/comments` (`get_comments`): renders `comments.html` with the
optional current user and the descending-ordered comment list. -/
def get_comments (db : DB) (session : SessionData) : HandlerResult :=
  (.template "comments.html" (get_current_user_from_session db session)
     (some (listComments db)), db, session)

/-- POST `/comments` (`post_comment`): raises HTTP 401 when no current user
resolves from the session; otherwise inserts a comment owned by that user,
stamped with the current clock, and redirects to `/comments`. -/
def post_comment (db : DB) (session : SessionData)
    (comment_text : String) : HandlerResult :=
  match get_current_user_from_session db session with
  | none => (.httpError 401 "You must be logged in to post a comment", db, session)
  | some user =>
      let new_comment : Comment := ⟨db.nextCommentId, comment_text, db.clock, user.id⟩
      (.redirect "/comments" 303,
       { db with comments := db.comments ++ [new_comment],
                 nextCommentId := db.nextCommentId + 1,
                 clock := db.clock + 1 },
       session)

/-- Credential verification as the login handler performs it: user lookup
followed by password verification; absent user and wrong password collapse
to the same `false`. -/
def verifyCredentials (db : DB) (username password : String) : Bool :=
  match get_user_from_db db username with
  | none => false
  | some user => verify_password password user.hashed_password

/-- One client-visible operation of the application. -/
inductive Action where
  | visitHome
  | visitAbout
  | visitContactForm
  | submitContact (name email message : String)
  | visitThankYou
  | visitRegisterForm
  | register (username password : String)
  | visitLoginForm
  | login (username password : String)
  | logout
  | visitComments
  | postComment (comment_text : String)
deriving Repr, DecidableEq

/-- State transition of one request: store and session after the handler. -/
def stepAction (s : DB × SessionData) : Action → DB × SessionData
  | .visitHome => (home s.1 s.2).2
  | .visitAbout => (about s.1 s.2).2
  | .visitContactForm => (show_contact_form s.1 s.2).2
  | .submitContact n e m => (submit_contact_form s.1 s.2 n e m).2
  | .visitThankYou => (show_thank_you_page s.1 s.2).2
  | .visitRegisterForm => (show_register_form s.1 s.2).2
  | .register u p => (register_user s.1 s.2 u p).2
  | .visitLoginForm => (show_login_form s.1 s.2).2
  | .login u p => (login_user s.1 s.2 u p).2
  | .logout => (logout_user s.1 s.2).2
  | .visitComments => (get_comments s.1 s.2).2
  | .postComment t => (post_comment s.1 s.2 t).2

/-- States reachable from startup by the application's own operations. -/
inductive Reachable : DB × SessionData → Prop where
  | init : Reachable (initDB, none)
  | step {s : DB × SessionData} (a : Action) : Reachable s → Reachable (stepAction s a)

/-- Referential integrity: every comment's owner id resolves to a user. -/
def refIntegrity (db : DB) : Prop :=
  ∀ c ∈ db.comments, ∃ u ∈ db.users, u.id = c.user_id

instance (db : DB) : Decidable (refIntegrity db) := by
  unfold refIntegrity; infer_instance

/-! ### Helper lemmas -/

/-- The descending-timestamp comparison used by `listComments` is transitive. -/
lemma descLe_trans (a b c : Comment) :
    (decide (b.created_at ≤ a.created_at)) = true →
    (decide (c.created_at ≤ b.created_at)) = true →
    (decide (c.created_at ≤ a.created_at)) = true := by
  simp only [decide_eq_true_eq]
  omega

/-- The descending-timestamp comparison used by `listComments` is total. -/
lemma descLe_total (a b : Comment) :
    ((decide (b.created_at ≤ a.created_at)) || (decide (a.created_at ≤ b.created_at))) = true := by
  simp only [Bool.or_eq_true, decide_eq_true_eq]
  omega

/-- Sorting a list with one element of strictly maximal timestamp puts that
element first. -/
lemma mergeSort_head_of_strict_max (l : List Comment) (c : Comment)
    (hmax : ∀ x ∈ l, x.created_at < c.created_at) :
    ((l ++ [c]).mergeSort (fun a b => b.created_at ≤ a.created_at)).head? = some c := by
  have hperm := List.mergeSort_perm (l ++ [c]) (fun a b => b.created_at ≤ a.created_at)
  have hsorted := List.sorted_mergeSort descLe_trans descLe_total (l ++ [c])
  cases hres : (l ++ [c]).mergeSort (fun a b => b.created_at ≤ a.created_at) with
  | nil =>
      exfalso
      have := hperm.mem_iff (a := c)
      rw [hres] at this
      simp at this
  | cons h t =>
      have hc : c ∈ h :: t := by
        rw [← hres]
        exact (hperm.mem_iff).2 (by simp)
      have hh : h ∈ l ++ [c] := by
        apply (hperm.mem_iff).1
        rw [hres]
        simp
      rw [hres] at hsorted
      rcases List.mem_cons.1 hc with rfl | hct
      · rfl
      · have hle : c.created_at ≤ h.created_at := by
          have := (List.pairwise_cons.1 hsorted).1 c hct
          simpa using this
        rcases List.mem_append.1 hh with hl | hr
        · exact absurd hle (by have := hmax h hl; omega)
        · simp only [List.mem_singleton] at hr
          simp [hr]

/-- A member of the users table satisfying the search predicate makes the
lookup by id succeed with a user of that id. -/
lemma find?_id_mem (db : DB) (u : User) (hmem : u ∈ db.users) :
    ∃ w, db.users.find? (fun x => x.id == u.id) = some w ∧ w.id = u.id := by
  have hsome : (db.users.find? (fun x => x.id == u.id)).isSome := by
    rw [List.find?_isSome]
    exact ⟨u, hmem, by simp⟩
  obtain ⟨w, hw⟩ := Option.isSome_iff_exists.1 hsome
  refine ⟨w, hw, ?_⟩
  have := List.find?_some hw
  simpa using this

/-- A login whose credential check fails renders `login-error.html` and
returns the store and session untouched. -/
lemma login_user_of_verify_false (db : DB) (session : SessionData)
    (username password : String)
    (h : verifyCredentials db username password = false) :
    login_user db session username password =
      (Response.template "login-error.html" none none, db, session) := by
  unfold verifyCredentials at h
  unfold login_user
  cases hfind : get_user_from_db db username with
  | none => rfl
  | some user =>
      rw [hfind] at h
      simp only [] at h
      simp [h]

/-- A resolved current user is a row of the users table. -/
lemma mem_of_current_user (db : DB) (session : SessionData) (u : User)
    (h : get_current_user_from_session db session = some u) : u ∈ db.users := by
  cases session with
  | none => simp [get_current_user_from_session] at h
  | some uid =>
      simp only [get_current_user_from_session] at h
      split at h
      · exact List.mem_of_find?_eq_some h
      · exact absurd h (by simp)

/-- A hash produced by `get_password_hash` is never the plaintext it was
produced from: the tag strictly lengthens the string. -/
lemma get_password_hash_ne (password : String) :
    get_password_hash password ≠ password := by
  intro h
  have := congrArg String.length h
  rw [get_password_hash, String.length_append] at this
  have h7 : ("$2b$12$" : String).length = 7 := rfl
  omega

/-! ### Claims -/

/-- C1: invoking POST `/comments` when no current user resolves from the
session fails with HTTP 401 — a raised `HTTPException`, neither a redirect
nor a page render — and leaves the store (in particular the comments table)
and the session unchanged. -/
theorem post_comment_unauthenticated_rejected (db : DB) (session : SessionData)
    (comment_text : String)
    (h : get_current_user_from_session db session = none) :
    post_comment db session comment_text =
      (Response.httpError 401 "You must be logged in to post a comment", db, session) ∧
    (post_comment db session comment_text).1.isRedirect = false ∧
    (post_comment db session comment_text).1.isTemplate = false ∧
    (post_comment db session comment_text).2.1.comments = db.comments := by
  unfold post_comment
  rw [h]
  refine ⟨rfl, rfl, rfl, rfl⟩

/-- Witness for C1: on the empty store with no session, posting is rejected
with 401 and the store is untouched. -/
theorem post_comment_unauthenticated_rejected_witness :
    get_current_user_from_session initDB none = none ∧
    post_comment initDB none "hi" =
      (Response.httpError 401 "You must be logged in to post a comment", initDB, none) :=
  ⟨by decide, (post_comment_unauthenticated_rejected initDB none "hi" (by decide)).1⟩

/-- C2: registering a fresh username succeeds (a redirect is issued), after
which the username resolves in the store, and a second registration of the
same username is rejected with HTTP 400 — a client-error response, not a
crash — leaving the store exactly as the first registration left it (no
second user row). -/
theorem register_then_duplicate (db : DB) (s1 s2 : SessionData)
    (username p1 p2 : String)
    (h : get_user_from_db db username = none) :
    (register_user db s1 username p1).1.isRedirect = true ∧
    (∃ u, get_user_from_db (register_user db s1 username p1).2.1 username = some u) ∧
    register_user (register_user db s1 username p1).2.1 s2 username p2 =
      (Response.httpError 400 "Username already registered",
       (register_user db s1 username p1).2.1, s2) := by
  unfold register_user
  unfold get_user_from_db at h ⊢
  rw [h]
  simp only [List.find?_append, h, Option.none_or]
  refine ⟨rfl, ⟨⟨db.nextUserId, username, get_password_hash p1⟩, ?_⟩, ?_⟩
  · simp [List.find?_append, h]
  · simp [List.find?_append, h, List.find?]

/-- Witness for C2: registering "alice" on the empty store succeeds; doing
it again fails with 400 and creates nothing. -/
theorem register_then_duplicate_witness :
    get_user_from_db initDB "alice" = none ∧
    (register_user initDB none "alice" "pw1").1.isRedirect = true :=
  ⟨by decide, (register_then_duplicate initDB none none "alice" "pw1" "pw2" (by decide)).1⟩

/-- C3: successful registration of a fresh username appends exactly one new
user whose stored password field is the salted hash of the supplied
password and not the plaintext, establishes a session whose subject is the
new user's id, and responds with a 303 redirect to the comments view. -/
theorem register_fresh_creates_hashed_user (db : DB) (session : SessionData)
    (username password : String)
    (h : get_user_from_db db username = none) :
    ∃ new_user : User,
      register_user db session username password =
        (Response.redirect "/comments" 303,
         { db with users := db.users ++ [new_user], nextUserId := db.nextUserId + 1 },
         some new_user.id) ∧
      new_user.username = username ∧
      new_user.hashed_password = get_password_hash password ∧
      new_user.hashed_password ≠ password := by
  refine ⟨⟨db.nextUserId, username, get_password_hash password⟩, ?_, rfl, rfl,
    get_password_hash_ne password⟩
  unfold register_user
  rw [h]

/-- Witness for C3: registering "alice"/"pw1" on the empty store stores the
hash, logs the new user in, and redirects to `/comments`. -/
theorem register_fresh_creates_hashed_user_witness :
    get_user_from_db initDB "alice" = none ∧
    ∃ new_user : User,
      register_user initDB none "alice" "pw1" =
        (Response.redirect "/comments" 303,
         { initDB with users := initDB.users ++ [new_user],
                       nextUserId := initDB.nextUserId + 1 },
         some new_user.id) ∧
      new_user.username = "alice" ∧
      new_user.hashed_password = get_password_hash "pw1" ∧
      new_user.hashed_password ≠ "pw1" :=
  ⟨by decide, register_fresh_creates_hashed_user initDB none "alice" "pw1" (by decide)⟩

/-- C4: a login with a username not in the store and a login with an
existing username but a password failing verification return the very same
result — the same `login-error.html` render, the same (unchanged) store and
session — so a caller cannot distinguish the two, and in both runs the
credential check yields false. -/
theorem login_failure_indistinguishable (db : DB) (session : SessionData)
    (u1 p1 u2 p2 : String) (usr : User)
    (h1 : get_user_from_db db u1 = some usr)
    (h2 : verify_password p1 usr.hashed_password = false)
    (h3 : get_user_from_db db u2 = none) :
    login_user db session u1 p1 = login_user db session u2 p2 ∧
    login_user db session u1 p1 =
      (Response.template "login-error.html" none none, db, session) ∧
    verifyCredentials db u1 p1 = false ∧
    verifyCredentials db u2 p2 = false := by
  have e1 : login_user db session u1 p1 =
      (Response.template "login-error.html" none none, db, session) := by
    unfold login_user
    rw [h1]
    simp [h2]
  have e2 : login_user db session u2 p2 =
      (Response.template "login-error.html" none none, db, session) := by
    unfold login_user
    rw [h3]
  have v1 : verifyCredentials db u1 p1 = false := by
    unfold verifyCredentials
    rw [h1]
    exact h2
  have v2 : verifyCredentials db u2 p2 = false := by
    unfold verifyCredentials
    rw [h3]
  exact ⟨e1.trans e2.symm, e1, v1, v2⟩

/-- Witness for C4: with only "alice" registered (password "pw1"), logging
in as "alice" with "wrong" and as "bob" with "anything" are
indistinguishable and both verifications are false. -/
theorem login_failure_indistinguishable_witness :
    (get_user_from_db (register_user initDB none "alice" "pw1").2.1 "alice" =
       some ⟨1, "alice", get_password_hash "pw1"⟩ ∧
     verify_password "wrong" (get_password_hash "pw1") = false ∧
     get_user_from_db (register_user initDB none "alice" "pw1").2.1 "bob" = none) ∧
    login_user (register_user initDB none "alice" "pw1").2.1 none "alice" "wrong" =
      login_user (register_user initDB none "alice" "pw1").2.1 none "bob" "anything" :=
  ⟨⟨by decide, by decide, by decide⟩,
   (login_failure_indistinguishable (register_user initDB none "alice" "pw1").2.1 none
      "alice" "wrong" "bob" "anything" ⟨1, "alice", get_password_hash "pw1"⟩
      (by decide) (by decide) (by decide)).1⟩

/-- C5: a login whose credential check fails raises nothing: it returns a
render of `login-error.html` with HTTP status 200 (success range, not a
redirect), the store is untouched, and the outbound session is exactly the
inbound one — in particular no authenticated subject is established by the
failed attempt. -/
theorem login_failure_soft (db : DB) (session : SessionData)
    (username password : String)
    (h : verifyCredentials db username password = false) :
    login_user db session username password =
      (Response.template "login-error.html" none none, db, session) ∧
    (login_user db session username password).1.status = 200 ∧
    200 ≤ (login_user db session username password).1.status ∧
    (login_user db session username password).1.status < 300 ∧
    (login_user db session username password).1.isRedirect = false ∧
    (session = none →
      get_current_user_from_session (login_user db session username password).2.1
        (login_user db session username password).2.2 = none) := by
  have hmain := login_user_of_verify_false db session username password h
  refine ⟨hmain, ?_, ?_, ?_, ?_, ?_⟩ <;> rw [hmain]
  · rfl
  · simp [Response.status]
  · simp [Response.status]
  · rfl
  · rintro rfl
    rfl

/-- Witness for C5: a wrong-password login for "alice" renders the login
error page with status 200 and leaves the empty session unestablished. -/
theorem login_failure_soft_witness :
    verifyCredentials (register_user initDB none "alice" "pw1").2.1 "alice" "wrong" = false ∧
    login_user (register_user initDB none "alice" "pw1").2.1 none "alice" "wrong" =
      (Response.template "login-error.html" none none,
       (register_user initDB none "alice" "pw1").2.1, none) :=
  ⟨by decide,
   (login_failure_soft (register_user initDB none "alice" "pw1").2.1 none
      "alice" "wrong" (by decide)).1⟩

/-- C6: for an existing user u (system-assigned ids are nonzero), a session
whose subject is u.id resolves to a user with identifier u.id; clearing the
session (as logout does) yields a session from which no current user
resolves. -/
theorem session_roundtrip (db : DB) (session : SessionData) (u : User)
    (hmem : u ∈ db.users) (hid : u.id ≠ 0) :
    (∃ w, get_current_user_from_session db (some u.id) = some w ∧ w.id = u.id) ∧
    (logout_user db session).2.2 = none ∧
    get_current_user_from_session db none = none := by
  refine ⟨?_, rfl, rfl⟩
  obtain ⟨w, hw, hwid⟩ := find?_id_mem db u hmem
  refine ⟨w, ?_, hwid⟩
  unfold get_current_user_from_session
  simp [hid, hw]

/-- Witness for C6: after registering "alice", the session subject 1
resolves back to a user with id 1, and a cleared session resolves to none. -/
theorem session_roundtrip_witness :
    (⟨1, "alice", get_password_hash "pw1"⟩ ∈
       (register_user initDB none "alice" "pw1").2.1.users ∧ (1 : Nat) ≠ 0) ∧
    ((∃ w, get_current_user_from_session (register_user initDB none "alice" "pw1").2.1
        (some 1) = some w ∧ w.id = 1) ∧
     (logout_user (register_user initDB none "alice" "pw1").2.1 (some 1)).2.2 = none ∧
     get_current_user_from_session (register_user initDB none "alice" "pw1").2.1 none = none) :=
  ⟨⟨by decide, by decide⟩,
   session_roundtrip (register_user initDB none "alice" "pw1").2.1 (some 1)
     ⟨1, "alice", get_password_hash "pw1"⟩ (by decide) (by decide)⟩

/-- C9: a failed login attempt leaves a previously established session
subject unchanged: the handler returns the inbound session verbatim, so the
previously authenticated user still resolves afterwards. -/
theorem login_failure_preserves_session (db : DB) (session : SessionData)
    (u : User) (username password : String)
    (hcur : get_current_user_from_session db session = some u)
    (hbad : verifyCredentials db username password = false) :
    (login_user db session username password).2.2 = session ∧
    get_current_user_from_session (login_user db session username password).2.1
      (login_user db session username password).2.2 = some u := by
  have hmain := login_user_of_verify_false db session username password hbad
  rw [hmain]
  exact ⟨rfl, hcur⟩

/-- Witness for C9: "alice" is logged in, submits a wrong password, and the
session still resolves to alice. -/
theorem login_failure_preserves_session_witness :
    (get_current_user_from_session (register_user initDB none "alice" "pw1").2.1 (some 1) =
       some ⟨1, "alice", get_password_hash "pw1"⟩ ∧
     verifyCredentials (register_user initDB none "alice" "pw1").2.1 "alice" "wrong" = false) ∧
    get_current_user_from_session
      (login_user (register_user initDB none "alice" "pw1").2.1 (some 1) "alice" "wrong").2.1
      (login_user (register_user initDB none "alice" "pw1").2.1 (some 1) "alice" "wrong").2.2 =
      some ⟨1, "alice", get_password_hash "pw1"⟩ :=
  ⟨⟨by decide, by decide⟩,
   (login_failure_preserves_session (register_user initDB none "alice" "pw1").2.1 (some 1)
      ⟨1, "alice", get_password_hash "pw1"⟩ "alice" "wrong" (by decide) (by decide)).2⟩

/-- C10: every page-render GET handler — home, about, contact form,
thank-you, register form, login form, comments list — returns the store and
the session exactly as it received them: these operations are read-only. -/
theorem render_handlers_read_only (db : DB) (session : SessionData) :
    (home db session).2 = (db, session) ∧
    (about db session).2 = (db, session) ∧
    (show_contact_form db session).2 = (db, session) ∧
    (show_thank_you_page db session).2 = (db, session) ∧
    (show_register_form db session).2 = (db, session) ∧
    (show_login_form db session).2 = (db, session) ∧
    (get_comments db session).2 = (db, session) :=
  ⟨rfl, rfl, rfl, rfl, rfl, rfl, rfl⟩

/-- C7: the comments listing is exactly the comments table ordered by
creation timestamp descending (a permutation of the table, pairwise
newest-first); and when an authenticated user U posts, the new comment is
owned by U, carries a server-assigned timestamp ≥ every previous one, and
heads the next listing. -/
theorem comments_listed_newest_first (db : DB) (session : SessionData)
    (comment_text : String) (U : User)
    (hu : get_current_user_from_session db session = some U)
    (hclock : ∀ x ∈ db.comments, x.created_at < db.clock) :
    (listComments db).Perm db.comments ∧
    (listComments db).Pairwise (fun a b => b.created_at ≤ a.created_at) ∧
    ∃ c : Comment,
      (post_comment db session comment_text).2.1.comments = db.comments ++ [c] ∧
      c.user_id = U.id ∧
      (∀ x ∈ db.comments, x.created_at ≤ c.created_at) ∧
      (listComments (post_comment db session comment_text).2.1).head? = some c := by
  refine ⟨List.mergeSort_perm db.comments _, ?_, ?_⟩
  · have hs := List.sorted_mergeSort descLe_trans descLe_total db.comments
    exact hs.imp (fun hab => of_decide_eq_true hab)
  · refine ⟨⟨db.nextCommentId, comment_text, db.clock, U.id⟩, ?_, rfl, ?_, ?_⟩
    · unfold post_comment
      rw [hu]
    · intro x hx
      exact Nat.le_of_lt (hclock x hx)
    · have hdb : (post_comment db session comment_text).2.1.comments =
          db.comments ++ [⟨db.nextCommentId, comment_text, db.clock, U.id⟩] := by
        unfold post_comment
        rw [hu]
      unfold listComments
      rw [hdb]
      exact mergeSort_head_of_strict_max db.comments _ hclock

/-- Witness for C7: with alice authenticated and one old comment at
timestamp 0 (clock 1), a newly posted comment heads the listing. -/
theorem comments_listed_newest_first_witness :
    (get_current_user_from_session
       (⟨[⟨1, "alice", get_password_hash "pw1"⟩], [⟨1, "first", 0, 1⟩], [], 2, 2, 1, 1⟩ : DB)
       (some 1) = some ⟨1, "alice", get_password_hash "pw1"⟩ ∧
     ∀ x ∈ (⟨[⟨1, "alice", get_password_hash "pw1"⟩], [⟨1, "first", 0, 1⟩], [], 2, 2, 1, 1⟩ : DB).comments,
       x.created_at <
         (⟨[⟨1, "alice", get_password_hash "pw1"⟩], [⟨1, "first", 0, 1⟩], [], 2, 2, 1, 1⟩ : DB).clock) ∧
    ∃ c : Comment,
      (post_comment
        (⟨[⟨1, "alice", get_password_hash "pw1"⟩], [⟨1, "first", 0, 1⟩], [], 2, 2, 1, 1⟩ : DB)
        (some 1) "second").2.1.comments =
        (⟨[⟨1, "alice", get_password_hash "pw1"⟩], [⟨1, "first", 0, 1⟩], [], 2, 2, 1, 1⟩ : DB).comments
          ++ [c] ∧
      c.user_id = 1 ∧
      (∀ x ∈ (⟨[⟨1, "alice", get_password_hash "pw1"⟩], [⟨1, "first", 0, 1⟩], [], 2, 2, 1, 1⟩ : DB).comments,
        x.created_at ≤ c.created_at) ∧
      (listComments (post_comment
        (⟨[⟨1, "alice", get_password_hash "pw1"⟩], [⟨1, "first", 0, 1⟩], [], 2, 2, 1, 1⟩ : DB)
        (some 1) "second").2.1).head? = some c :=
  ⟨⟨by decide, by decide⟩,
   (comments_listed_newest_first
      (⟨[⟨1, "alice", get_password_hash "pw1"⟩], [⟨1, "first", 0, 1⟩], [], 2, 2, 1, 1⟩ : DB)
      (some 1) "second" ⟨1, "alice", get_password_hash "pw1"⟩ (by decide) (by decide)).2.2⟩

/-- Every operation preserves referential integrity of the store. -/
lemma refIntegrity_stepAction (s : DB × SessionData) (a : Action)
    (h : refIntegrity s.1) : refIntegrity (stepAction s a).1 := by
  cases a with
  | visitHome => exact h
  | visitAbout => exact h
  | visitContactForm => exact h
  | submitContact n e m =>
      intro c hc
      exact h c hc
  | visitThankYou => exact h
  | visitRegisterForm => exact h
  | register u p =>
      simp only [stepAction, register_user]
      cases hf : get_user_from_db s.1 u with
      | some _ => exact h
      | none =>
          intro c hc
          obtain ⟨w, hw, he⟩ := h c hc
          exact ⟨w, List.mem_append_left _ hw, he⟩
  | visitLoginForm => exact h
  | login u p =>
      simp only [stepAction, login_user]
      cases hf : get_user_from_db s.1 u with
      | none => exact h
      | some user =>
          by_cases hv : verify_password p user.hashed_password = true
          · simp only [hv, if_true]
            exact h
          · simp only [hv, if_false]
            exact h
  | logout => exact h
  | visitComments => exact h
  | postComment t =>
      simp only [stepAction, post_comment]
      cases hcur : get_current_user_from_session s.1 s.2 with
      | none => exact h
      | some user =>
          intro c hc
          rcases List.mem_append.1 hc with hold | hnew
          · exact h c hold
          · have hm : user ∈ s.1.users := mem_of_current_user s.1 s.2 user hcur
            simp only [List.mem_singleton] at hnew
            subst hnew
            exact ⟨user, hm, rfl⟩

/-- C8: in every state reachable from startup by the application's own
operations, every comment's owner id resolves to an existing user. -/
theorem referential_integrity_invariant (s : DB × SessionData)
    (h : Reachable s) : refIntegrity s.1 := by
  induction h with
  | init =>
      intro c hc
      simp [initDB] at hc
  | step a _ ih => exact refIntegrity_stepAction _ a ih

/-- Witness for C8: the state reached by registering "alice" and posting a
comment is reachable and referentially intact. -/
theorem referential_integrity_invariant_witness :
    Reachable (stepAction (stepAction (initDB, none) (.register "alice" "pw1"))
      (.postComment "hi")) ∧
    refIntegrity (stepAction (stepAction (initDB, none) (.register "alice" "pw1"))
      (.postComment "hi")).1 :=
  have hr : Reachable (stepAction (stepAction (initDB, none) (.register "alice" "pw1"))
      (.postComment "hi")) :=
    Reachable.step (.postComment "hi") (Reachable.step (.register "alice" "pw1") Reachable.init)
  ⟨hr, referential_integrity_invariant _ hr⟩

end App
